import Mathlib

/-!
Verification of the NeuraX signaling server (src/server/server.py).

The server keeps an in-memory dictionary `active_sessions` mapping a
session id to a record with optional `client_id` and `compute_id`
connection identifiers, plus transport-level room membership.  Each
Socket.IO handler is embedded as a pure function from the current server
state, the sender's connection id (`request.sid`) and the event payload
to the new state together with the list of outbound emissions.
-/

namespace NeuraX

/-- An inbound event payload: `data.get(field)` yields `none` when the
field is absent.  Payload values (offer/answer/candidate) are modelled as
opaque strings. -/
structure EventData where
  session_id : Option String := none
  offer : Option String := none
  answer : Option String := none
  candidate : Option String := none
deriving Repr, DecidableEq

/-- Python truthiness test `not x` on a `data.get` result: true for a
missing field and for the empty string. -/
def isBlank : Option String → Bool
  | none => true
  | some s => s.isEmpty

/-- One entry of `active_sessions`: `{client_id: ..., compute_id: ...}`,
each key optional. -/
structure Session where
  client_id : Option String := none
  compute_id : Option String := none
deriving Repr, DecidableEq

/-- An outbound transmission: either a unicast `emit` to one connection
(the sender of the event being handled) or a `socketio.emit(..., room=r)`
broadcast to a room.  Payloads are field-name/value association lists. -/
inductive Out where
  | emitTo (conn : String) (event : String) (payload : List (String × String))
  | broadcast (room : String) (event : String) (payload : List (String × String))
deriving Repr, DecidableEq

/-- Whether an outbound transmission is a room broadcast. -/
def Out.isBroadcast : Out → Bool
  | .broadcast _ _ _ => true
  | _ => false

/-- `true` when no element of the outbound list is a room broadcast. -/
def noBroadcast (l : List Out) : Bool :=
  l.all fun o => !o.isBroadcast

/-- Association-list lookup by key, first match wins (Python dict read). -/
def lookupA {α : Type} (l : List (String × α)) (k : String) : Option α :=
  match l with
  | [] => none
  | e :: rest => if e.1 = k then some e.2 else lookupA rest k

/-- Association-list store: replace the first entry with the key, or
append a fresh entry (Python dict write `d[k] = v`). -/
def insertA {α : Type} (l : List (String × α)) (k : String) (v : α) :
    List (String × α) :=
  match l with
  | [] => [(k, v)]
  | e :: rest => if e.1 = k then (k, v) :: rest else e :: insertA rest k v

/-- Association-list deletion of a key (Python `del d[k]`). -/
def eraseA {α : Type} (l : List (String × α)) (k : String) :
    List (String × α) :=
  l.filter fun e => !(e.1 == k)

/-- The whole server state: the `active_sessions` dictionary and the
transport's room-membership table. -/
structure ServerState where
  active_sessions : List (String × Session) := []
  rooms : List (String × List String) := []
deriving Repr, DecidableEq

/-- The session record stored for `s`, defaulting to the empty record:
`active_sessions.get(s, \x7b\x7d)`. -/
def sessionOf (st : ServerState) (s : String) : Session :=
  (lookupA st.active_sessions s).getD {}

/-- Current member list of a room (empty when the room does not exist). -/
def roomMembers (st : ServerState) (room : String) : List String :=
  (lookupA st.rooms room).getD []

/-- Add a connection to a member list; Socket.IO `join_room` is
idempotent, so a present member is not duplicated. -/
def addMember (members : List String) (sid : String) : List String :=
  if members.contains sid then members else members ++ [sid]

/-- `join_room(room)` called with `request.sid = sid`. -/
def joinRoom (rooms : List (String × List String)) (room sid : String) :
    List (String × List String) :=
  insertA rooms room (addMember ((lookupA rooms room).getD []) sid)

/-- Remove a connection from every room; the Socket.IO transport performs
this automatically when a connection disconnects. -/
def leaveAllRooms (rooms : List (String × List String)) (sid : String) :
    List (String × List String) :=
  rooms.map fun e => (e.1, e.2.filter fun m => !(m == sid))

/-- `handle_connect`: log and acknowledge; no state change. -/
def handle_connect (st : ServerState) (sid : String) :
    ServerState × List Out :=
  (st, [Out.emitTo sid "connected"
    [("message", "Connected to NeuraX signaling server")]])

/-- Whether a session record names `sid` in either role:
`session_data.get('client_id') == sid or session_data.get('compute_id') == sid`. -/
def involves (sess : Session) (sid : String) : Bool :=
  sess.client_id == some sid || sess.compute_id == some sid

/-- `handle_disconnect`: collect the ids of every session in which the
departing connection occupies a role, then delete each collected session;
the transport additionally drops the connection from all rooms. -/
def handle_disconnect (st : ServerState) (sid : String) :
    ServerState × List Out :=
  let sessions_to_remove :=
    (st.active_sessions.filter fun e => involves e.2 sid).map (·.1)
  let cleaned := sessions_to_remove.foldl (fun acc k => eraseA acc k)
    st.active_sessions
  ({ active_sessions := cleaned, rooms := leaveAllRooms st.rooms sid }, [])

/-- `handle_create_session`: reject a blank `session_id`; otherwise take
the existing record (or a fresh empty one), set its `client_id` to the
caller, join the caller to the room named by the session id, and confirm. -/
def handle_create_session (st : ServerState) (sid : String)
    (data : EventData) : ServerState × List Out :=
  if isBlank data.session_id then
    (st, [Out.emitTo sid "error" [("message", "session_id required")]])
  else
    let session_id := data.session_id.getD ""
    let sess := (lookupA st.active_sessions session_id).getD {}
    ({ active_sessions := insertA st.active_sessions session_id
         { sess with client_id := some sid },
       rooms := joinRoom st.rooms session_id sid },
     [Out.emitTo sid "session_created" [("session_id", session_id)]])

/-- `handle_join_as_compute`: reject a blank `session_id`; report
`Session not found` when the id names no session; otherwise set the
record's `compute_id` to the caller, join the room, and confirm the role. -/
def handle_join_as_compute (st : ServerState) (sid : String)
    (data : EventData) : ServerState × List Out :=
  if isBlank data.session_id then
    (st, [Out.emitTo sid "error" [("message", "session_id required")]])
  else
    let session_id := data.session_id.getD ""
    match lookupA st.active_sessions session_id with
    | none =>
      (st, [Out.emitTo sid "error" [("message", "Session not found")]])
    | some sess =>
      ({ active_sessions := insertA st.active_sessions session_id
           { sess with compute_id := some sid },
         rooms := joinRoom st.rooms session_id sid },
       [Out.emitTo sid "joined"
         [("role", "compute"), ("session_id", session_id)]])

/-- `handle_offer`: validate `session_id` and `offer`, require the sender
to be the stored client of the session, then broadcast the offer to the
session room unchanged. -/
def handle_offer (st : ServerState) (sid : String) (data : EventData) :
    ServerState × List Out :=
  if isBlank data.session_id || isBlank data.offer then
    (st, [Out.emitTo sid "error"
      [("message", "session_id and offer required")]])
  else
    let s := data.session_id.getD ""
    if ((lookupA st.active_sessions s).getD {}).client_id ≠ some sid then
      (st, [Out.emitTo sid "error"
        [("message", "Unauthorized: not client for this session")]])
    else
      (st, [Out.broadcast s "offer"
        [("session_id", s), ("offer", data.offer.getD ""), ("from", sid)]])

/-- `handle_answer`: validate `session_id` and `answer`, require the
sender to be the stored compute node of the session, then broadcast the
answer to the session room unchanged. -/
def handle_answer (st : ServerState) (sid : String) (data : EventData) :
    ServerState × List Out :=
  if isBlank data.session_id || isBlank data.answer then
    (st, [Out.emitTo sid "error"
      [("message", "session_id and answer required")]])
  else
    let s := data.session_id.getD ""
    if ((lookupA st.active_sessions s).getD {}).compute_id ≠ some sid then
      (st, [Out.emitTo sid "error"
        [("message", "Unauthorized: not compute for this session")]])
    else
      (st, [Out.broadcast s "answer"
        [("session_id", s), ("answer", data.answer.getD ""), ("from", sid)]])

/-- `handle_ice_candidate`: validate `session_id` and `candidate`,
require the sender to hold either role of the session, then broadcast the
candidate to the session room unchanged. -/
def handle_ice_candidate (st : ServerState) (sid : String)
    (data : EventData) : ServerState × List Out :=
  if isBlank data.session_id || isBlank data.candidate then
    (st, [Out.emitTo sid "error"
      [("message", "session_id and candidate required")]])
  else
    let s := data.session_id.getD ""
    let session_data := (lookupA st.active_sessions s).getD {}
    if session_data.client_id ≠ some sid ∧
        session_data.compute_id ≠ some sid then
      (st, [Out.emitTo sid "error"
        [("message", "Unauthorized: not in this session")]])
    else
      (st, [Out.broadcast s "ice_candidate"
        [("session_id", s), ("candidate", data.candidate.getD ""),
         ("from", sid)]])

/-- One transport-delivered event, tagged with the connection it came
from. -/
inductive Event where
  | connect (sid : String)
  | disconnect (sid : String)
  | create_session (sid : String) (data : EventData)
  | join_as_compute (sid : String) (data : EventData)
  | offer (sid : String) (data : EventData)
  | answer (sid : String) (data : EventData)
  | ice_candidate (sid : String) (data : EventData)
deriving Repr, DecidableEq

/-- Dispatch one event to its handler. -/
def step (st : ServerState) (e : Event) : ServerState × List Out :=
  match e with
  | .connect sid => handle_connect st sid
  | .disconnect sid => handle_disconnect st sid
  | .create_session sid d => handle_create_session st sid d
  | .join_as_compute sid d => handle_join_as_compute st sid d
  | .offer sid d => handle_offer st sid d
  | .answer sid d => handle_answer st sid d
  | .ice_candidate sid d => handle_ice_candidate st sid d

/-- The state at process start: no sessions, no rooms. -/
def initialState : ServerState := {}

/-- Run a sequence of events from the initial state. -/
def run (es : List Event) : ServerState :=
  es.foldl (fun st e => (step st e).1) initialState

/-- `true` exactly when `e` is the disconnect of connection `c`. -/
def Event.isDisconnectOf : Event → String → Bool
  | .disconnect sid, c => sid == c
  | _, _ => false

/-- Number of `active_sessions` entries stored under key `k`. -/
def countKey (l : List (String × Session)) (k : String) : Nat :=
  (l.filter fun e => e.1 == k).length

/-- A store has well-formed dictionary shape when its keys are distinct. -/
def NodupKeys {α : Type} (l : List (String × α)) : Prop :=
  (l.map Prod.fst).Nodup

/-- Whether handling event `e` in state `st` successfully registers
connection `c` into room `room`: a `create_session` by `c` naming `room`,
or a `join_as_compute` by `c` naming `room` when that session exists
(these are exactly the cases in which the handlers call `join_room`). -/
def registersInto (st : ServerState) (e : Event) (c room : String) :
    Bool :=
  match e with
  | .create_session sid d =>
      decide (sid = c ∧ isBlank d.session_id = false ∧
        d.session_id.getD "" = room)
  | .join_as_compute sid d =>
      decide (sid = c ∧ isBlank d.session_id = false ∧
        d.session_id.getD "" = room ∧
        (lookupA st.active_sessions room).isSome = true)
  | _ => false

/-- Declarative room membership for a full trace: connection `c` belongs
to `room` after the trace exactly when some event successfully registered
`c` into `room` and `c` has not disconnected since.  Computed by folding
over the trace alongside the server state. -/
def specRoomMember (es : List Event) (c room : String) : Bool :=
  (es.foldl (fun (p : ServerState × Bool) e =>
      ((step p.1 e).1,
        (p.2 && !(e.isDisconnectOf c)) || registersInto p.1 e c room))
    (initialState, false)).2

theorem lookupA_insertA_self {α : Type} (l : List (String × α)) (k : String)
    (v : α) : lookupA (insertA l k v) k = some v := by
  induction l with
  | nil => simp [insertA, lookupA]
  | cons e rest ih =>
    by_cases h : e.1 = k <;> simp [insertA, lookupA, h, ih]

theorem lookupA_insertA_ne {α : Type} (l : List (String × α)) (k k' : String)
    (v : α) (h : k' ≠ k) : lookupA (insertA l k v) k' = lookupA l k' := by
  have hkk : ¬ k = k' := fun hq => h hq.symm
  induction l with
  | nil => simp only [insertA, lookupA, if_neg hkk]
  | cons e rest ih =>
    by_cases he : e.1 = k
    · have hek : ¬ e.1 = k' := fun hh => h (hh.symm.trans he)
      simp only [insertA, if_pos he, lookupA, if_neg hek, if_neg hkk]
    · simp only [insertA, if_neg he, lookupA, ih]

theorem eraseA_insertA {α : Type} (l : List (String × α)) (k : String)
    (v : α) : eraseA (insertA l k v) k = eraseA l k := by
  induction l with
  | nil => simp [insertA, eraseA]
  | cons e rest ih =>
    by_cases h : e.1 = k
    · simp [insertA, eraseA, h]
    · simp only [insertA, eraseA, if_neg h] at ih ⊢
      simp [List.filter, h, ih]

theorem mem_insertA {α : Type} {l : List (String × α)} {k : String} {v : α}
    {e : String × α} (h : e ∈ insertA l k v) : e = (k, v) ∨ e ∈ l := by
  induction l with
  | nil => simpa [insertA] using h
  | cons e2 rest ih =>
    by_cases he : e2.1 = k
    · simp only [insertA, if_pos he, List.mem_cons] at h
      rcases h with h | h
      · exact Or.inl h
      · exact Or.inr (List.mem_cons_of_mem _ h)
    · simp only [insertA, if_neg he, List.mem_cons] at h
      rcases h with h | h
      · exact Or.inr (h ▸ List.mem_cons_self _ _)
      · rcases ih h with h2 | h2
        · exact Or.inl h2
        · exact Or.inr (List.mem_cons_of_mem _ h2)

theorem lookupA_mem {α : Type} {l : List (String × α)} {k : String} {v : α}
    (h : lookupA l k = some v) : (k, v) ∈ l := by
  induction l with
  | nil => simp [lookupA] at h
  | cons e rest ih =>
    by_cases he : e.1 = k
    · simp only [lookupA, if_pos he, Option.some.injEq] at h
      subst h
      subst he
      exact List.mem_cons_self _ _
    · simp only [lookupA, if_neg he] at h
      exact List.mem_cons_of_mem _ (ih h)

theorem lookupA_eq_none {α : Type} {l : List (String × α)} {k : String}
    (h : ∀ e ∈ l, e.1 ≠ k) : lookupA l k = none := by
  induction l with
  | nil => rfl
  | cons e rest ih =>
    simp only [lookupA, if_neg (h e (List.mem_cons_self _ _))]
    exact ih fun e2 h2 => h e2 (List.mem_cons_of_mem _ h2)

theorem countKey_insertA (l : List (String × Session)) (k : String)
    (v : Session) : countKey (insertA l k v) k = max (countKey l k) 1 := by
  induction l with
  | nil => simp [insertA, countKey]
  | cons e rest ih =>
    by_cases h : e.1 = k
    · simp [insertA, countKey, h, List.filter] at ih ⊢
      try omega
    · have hb : (e.1 == k) = false := by simp [h]
      simp only [insertA, if_neg h, countKey, List.filter, hb] at ih ⊢
      exact ih

theorem foldl_eraseA {α : Type} (ks : List String)
    (l : List (String × α)) :
    ks.foldl (fun acc k => eraseA acc k) l =
      l.filter fun e => !(decide (e.1 ∈ ks)) := by
  induction ks generalizing l with
  | nil => simp
  | cons k rest ih =>
    rw [List.foldl_cons, ih, eraseA, List.filter_filter]
    refine List.filter_congr fun e he => ?_
    by_cases h : e.1 = k <;> simp [h, List.mem_cons]

theorem eq_of_mem_nodupkeys {α : Type} {l : List (String × α)}
    (hnd : NodupKeys l) {a b : String × α} (ha : a ∈ l) (hb : b ∈ l)
    (hk : a.1 = b.1) : a = b := by
  induction l with
  | nil => simp at ha
  | cons e rest ih =>
    rcases List.nodup_cons.mp hnd with ⟨hne, hrest⟩
    rcases List.mem_cons.mp ha with ha1 | ha1 <;>
      rcases List.mem_cons.mp hb with hb1 | hb1
    · exact ha1.trans hb1.symm
    · exact absurd (hk ▸ (List.mem_map_of_mem Prod.fst hb1)) (ha1 ▸ hne)
    · exact absurd (hk ▸ (List.mem_map_of_mem Prod.fst ha1)) (hb1 ▸ hne)
    · exact ih hrest ha1 hb1

theorem mem_addMember (m : List String) (sid : String) :
    sid ∈ addMember m sid := by
  unfold addMember
  split
  · next h => exact List.mem_of_elem_eq_true h
  · simp

theorem mem_addMember_of_mem {m : List String} {c : String} (h : c ∈ m)
    (sid : String) : c ∈ addMember m sid := by
  unfold addMember
  split
  · exact h
  · exact List.mem_append_left _ h

theorem lookupA_leaveAllRooms (rooms : List (String × List String))
    (sid k : String) :
    lookupA (leaveAllRooms rooms sid) k =
      (lookupA rooms k).map fun l2 => l2.filter fun m => !(m == sid) := by
  induction rooms with
  | nil => rfl
  | cons e rest ih =>
    unfold leaveAllRooms at ih ⊢
    by_cases h : e.1 = k <;> simp [lookupA, h, ih]

theorem handle_offer_state (st : ServerState) (sid : String)
    (d : EventData) : (handle_offer st sid d).1 = st := by
  unfold handle_offer
  split
  · rfl
  · dsimp only
    split <;> rfl

theorem handle_answer_state (st : ServerState) (sid : String)
    (d : EventData) : (handle_answer st sid d).1 = st := by
  unfold handle_answer
  split
  · rfl
  · dsimp only
    split <;> rfl

theorem handle_ice_candidate_state (st : ServerState) (sid : String)
    (d : EventData) : (handle_ice_candidate st sid d).1 = st := by
  unfold handle_ice_candidate
  split
  · rfl
  · dsimp only
    split <;> rfl

/-- C1: For every relay event with its required fields present,
authorization is by exact connection-identity match: an `offer` is
broadcast iff the sender's connection identifier equals the stored
`client_id` of the named session, an `answer` iff it equals the stored
`compute_id`, and an `ice_candidate` iff it equals either stored role;
any other sender receives an `Unauthorized` error event and no broadcast
occurs. -/
theorem C1_relay_authorization (st : ServerState) (sid s o a c : String)
    (d : EventData)
    (hs : d.session_id = some s) (hsne : s.isEmpty = false)
    (ho : d.offer = some o) (hone : o.isEmpty = false)
    (ha : d.answer = some a) (hane : a.isEmpty = false)
    (hc : d.candidate = some c) (hcne : c.isEmpty = false) :
    (handle_offer st sid d =
      if (sessionOf st s).client_id = some sid then
        (st, [Out.broadcast s "offer"
          [("session_id", s), ("offer", o), ("from", sid)]])
      else
        (st, [Out.emitTo sid "error"
          [("message", "Unauthorized: not client for this session")]])) ∧
    (handle_answer st sid d =
      if (sessionOf st s).compute_id = some sid then
        (st, [Out.broadcast s "answer"
          [("session_id", s), ("answer", a), ("from", sid)]])
      else
        (st, [Out.emitTo sid "error"
          [("message", "Unauthorized: not compute for this session")]])) ∧
    (handle_ice_candidate st sid d =
      if (sessionOf st s).client_id = some sid ∨
          (sessionOf st s).compute_id = some sid then
        (st, [Out.broadcast s "ice_candidate"
          [("session_id", s), ("candidate", c), ("from", sid)]])
      else
        (st, [Out.emitTo sid "error"
          [("message", "Unauthorized: not in this session")]])) := by
  refine ⟨?_, ?_, ?_⟩
  · unfold handle_offer
    rw [hs, ho]
    simp only [isBlank, hsne, hone, Bool.or_self, Bool.false_eq_true,
      if_false, Option.getD_some]
    by_cases hcl : (sessionOf st s).client_id = some sid
    · simp [sessionOf] at hcl
      simp [hcl, sessionOf]
    · simp [sessionOf] at hcl
      simp [hcl, sessionOf]
  · unfold handle_answer
    rw [hs, ha]
    simp only [isBlank, hsne, hane, Bool.or_self, Bool.false_eq_true,
      if_false, Option.getD_some]
    by_cases hcp : (sessionOf st s).compute_id = some sid
    · simp [sessionOf] at hcp
      simp [hcp, sessionOf]
    · simp [sessionOf] at hcp
      simp [hcp, sessionOf]
  · unfold handle_ice_candidate
    rw [hs, hc]
    simp only [isBlank, hsne, hcne, Bool.or_self, Bool.false_eq_true,
      if_false, Option.getD_some]
    by_cases hrole : (sessionOf st s).client_id = some sid ∨
        (sessionOf st s).compute_id = some sid
    · have hno : ¬ (((lookupA st.active_sessions s).getD {}).client_id
          ≠ some sid ∧
          ((lookupA st.active_sessions s).getD {}).compute_id ≠ some sid) := by
        simp only [sessionOf] at hrole
        rcases hrole with h1 | h1 <;> simp [h1]
      rw [if_pos hrole]
      simp only [if_neg hno]
    · push_neg at hrole
      have hrole2 : ¬ ((sessionOf st s).client_id = some sid ∨
          (sessionOf st s).compute_id = some sid) := by
        rcases hrole with ⟨h1, h2⟩
        rintro (h | h)
        exacts [h1 h, h2 h]
      rw [if_neg hrole2]
      have hand : ((lookupA st.active_sessions s).getD {}).client_id
          ≠ some sid ∧
          ((lookupA st.active_sessions s).getD {}).compute_id ≠ some sid := by
        simpa [sessionOf] using hrole
      rw [if_pos hand]

/-- Witness for C1 at a concrete session: connection `A` is the client of
session `s1` and `B` the compute node, so an offer from `A` broadcasts
while `A` is allowed an ice candidate. -/
theorem C1_relay_authorization_witness :
    (({ session_id := some "s1", offer := some "O", answer := some "N",
        candidate := some "I" } : EventData).session_id = some "s1") ∧
    (handle_offer
      { active_sessions := [("s1",
          { client_id := some "A", compute_id := some "B" })] } "A"
      { session_id := some "s1", offer := some "O", answer := some "N",
        candidate := some "I" } =
      if (sessionOf { active_sessions := [("s1",
            { client_id := some "A", compute_id := some "B" })] }
          "s1").client_id = some "A" then
        ({ active_sessions := [("s1",
            { client_id := some "A", compute_id := some "B" })] },
         [Out.broadcast "s1" "offer"
           [("session_id", "s1"), ("offer", "O"), ("from", "A")]])
      else
        ({ active_sessions := [("s1",
            { client_id := some "A", compute_id := some "B" })] },
         [Out.emitTo "A" "error"
           [("message", "Unauthorized: not client for this session")]])) := by
  refine ⟨rfl, ?_⟩
  exact (C1_relay_authorization
    { active_sessions := [("s1",
        { client_id := some "A", compute_id := some "B" })] }
    "A" "s1" "O" "N" "I"
    { session_id := some "s1", offer := some "O", answer := some "N",
      candidate := some "I" }
    rfl rfl rfl rfl rfl rfl rfl rfl).1

theorem offer_out_cases (st : ServerState) (sid : String) (d : EventData) :
    (∃ r ev p, (handle_offer st sid d).2 = [Out.broadcast r ev p]) ∨
    (∃ m, (handle_offer st sid d).2 =
      [Out.emitTo sid "error" [("message", m)]]) := by
  unfold handle_offer
  split
  · exact Or.inr ⟨_, rfl⟩
  · dsimp only
    split
    · exact Or.inr ⟨_, rfl⟩
    · exact Or.inl ⟨_, _, _, rfl⟩

theorem answer_out_cases (st : ServerState) (sid : String) (d : EventData) :
    (∃ r ev p, (handle_answer st sid d).2 = [Out.broadcast r ev p]) ∨
    (∃ m, (handle_answer st sid d).2 =
      [Out.emitTo sid "error" [("message", m)]]) := by
  unfold handle_answer
  split
  · exact Or.inr ⟨_, rfl⟩
  · dsimp only
    split
    · exact Or.inr ⟨_, rfl⟩
    · exact Or.inl ⟨_, _, _, rfl⟩

theorem ice_out_cases (st : ServerState) (sid : String) (d : EventData) :
    (∃ r ev p, (handle_ice_candidate st sid d).2 = [Out.broadcast r ev p]) ∨
    (∃ m, (handle_ice_candidate st sid d).2 =
      [Out.emitTo sid "error" [("message", m)]]) := by
  unfold handle_ice_candidate
  split
  · exact Or.inr ⟨_, rfl⟩
  · dsimp only
    split
    · exact Or.inr ⟨_, rfl⟩
    · exact Or.inl ⟨_, _, _, rfl⟩

/-- C2: A relay event that does not result in a room broadcast (i.e. that
failed validation or authorization) produces exactly one outbound
transmission, an error event unicast to the offending sender, and leaves
the server state (in particular the session store) unchanged. -/
theorem C2_relay_fail_closed (st : ServerState) (sid : String)
    (d : EventData)
    (h1 : noBroadcast (handle_offer st sid d).2 = true)
    (h2 : noBroadcast (handle_answer st sid d).2 = true)
    (h3 : noBroadcast (handle_ice_candidate st sid d).2 = true) :
    ((handle_offer st sid d).1 = st ∧
      ∃ m, (handle_offer st sid d).2 =
        [Out.emitTo sid "error" [("message", m)]]) ∧
    ((handle_answer st sid d).1 = st ∧
      ∃ m, (handle_answer st sid d).2 =
        [Out.emitTo sid "error" [("message", m)]]) ∧
    ((handle_ice_candidate st sid d).1 = st ∧
      ∃ m, (handle_ice_candidate st sid d).2 =
        [Out.emitTo sid "error" [("message", m)]]) := by
  refine ⟨⟨handle_offer_state st sid d, ?_⟩,
    ⟨handle_answer_state st sid d, ?_⟩,
    ⟨handle_ice_candidate_state st sid d, ?_⟩⟩
  · rcases offer_out_cases st sid d with ⟨r, ev, p, hb⟩ | hm
    · rw [hb] at h1
      simp [noBroadcast, Out.isBroadcast] at h1
    · exact hm
  · rcases answer_out_cases st sid d with ⟨r, ev, p, hb⟩ | hm
    · rw [hb] at h2
      simp [noBroadcast, Out.isBroadcast] at h2
    · exact hm
  · rcases ice_out_cases st sid d with ⟨r, ev, p, hb⟩ | hm
    · rw [hb] at h3
      simp [noBroadcast, Out.isBroadcast] at h3
    · exact hm

/-- Witness for C2: a relay attempt with an empty payload fails
validation on all three events, produces no broadcast, and each handler
answers with a single error event to the sender. -/
theorem C2_relay_fail_closed_witness :
    noBroadcast (handle_offer initialState "A" {}).2 = true ∧
    (((handle_offer initialState "A" {}).1 = initialState ∧
      ∃ m, (handle_offer initialState "A" {}).2 =
        [Out.emitTo "A" "error" [("message", m)]]) ∧
    ((handle_answer initialState "A" {}).1 = initialState ∧
      ∃ m, (handle_answer initialState "A" {}).2 =
        [Out.emitTo "A" "error" [("message", m)]]) ∧
    ((handle_ice_candidate initialState "A" {}).1 = initialState ∧
      ∃ m, (handle_ice_candidate initialState "A" {}).2 =
        [Out.emitTo "A" "error" [("message", m)]])) :=
  ⟨rfl, C2_relay_fail_closed initialState "A" {} rfl rfl rfl⟩

/-- C3: When the required fields are present but the named session is
absent from the store, each relay handler emits the same `Unauthorized`
error event as a role mismatch on an existing session — not the
`Session not found` error — and no broadcast occurs and the state is
unchanged. -/
theorem C3_missing_session_unauthorized (st st2 : ServerState)
    (sid s o a c : String) (d : EventData) (sess : Session)
    (hs : d.session_id = some s) (hsne : s.isEmpty = false)
    (ho : d.offer = some o) (hone : o.isEmpty = false)
    (ha : d.answer = some a) (hane : a.isEmpty = false)
    (hc : d.candidate = some c) (hcne : c.isEmpty = false)
    (habs : lookupA st.active_sessions s = none)
    (hpres : lookupA st2.active_sessions s = some sess)
    (hm1 : sess.client_id ≠ some sid) (hm2 : sess.compute_id ≠ some sid) :
    handle_offer st sid d = (st, [Out.emitTo sid "error"
      [("message", "Unauthorized: not client for this session")]]) ∧
    handle_answer st sid d = (st, [Out.emitTo sid "error"
      [("message", "Unauthorized: not compute for this session")]]) ∧
    handle_ice_candidate st sid d = (st, [Out.emitTo sid "error"
      [("message", "Unauthorized: not in this session")]]) ∧
    (handle_offer st2 sid d).2 = (handle_offer st sid d).2 ∧
    (handle_answer st2 sid d).2 = (handle_answer st sid d).2 ∧
    (handle_ice_candidate st2 sid d).2 =
      (handle_ice_candidate st sid d).2 := by
  have hoff : handle_offer st sid d = (st, [Out.emitTo sid "error"
      [("message", "Unauthorized: not client for this session")]]) := by
    simp [handle_offer, hs, ho, isBlank, hsne, hone, habs]
  have hans : handle_answer st sid d = (st, [Out.emitTo sid "error"
      [("message", "Unauthorized: not compute for this session")]]) := by
    simp [handle_answer, hs, ha, isBlank, hsne, hane, habs]
  have hice : handle_ice_candidate st sid d = (st, [Out.emitTo sid "error"
      [("message", "Unauthorized: not in this session")]]) := by
    simp [handle_ice_candidate, hs, hc, isBlank, hsne, hcne, habs]
  refine ⟨hoff, hans, hice, ?_, ?_, ?_⟩
  · rw [hoff]
    simp [handle_offer, hs, ho, isBlank, hsne, hone, hpres, hm1]
  · rw [hans]
    simp [handle_answer, hs, ha, isBlank, hsne, hane, hpres, hm2]
  · rw [hice]
    simp [handle_ice_candidate, hs, hc, isBlank, hsne, hcne, hpres,
      hm1, hm2]

/-- Witness for C3: the store has only session `s2`, so relaying for
`s1` is rejected as unauthorized, exactly as it is for a third connection
on an existing session. -/
theorem C3_missing_session_unauthorized_witness :
    lookupA (ServerState.mk [("s2",
      { client_id := some "A", compute_id := some "B" })] []).active_sessions
      "s1" = none ∧
    handle_offer (ServerState.mk [("s2",
      { client_id := some "A", compute_id := some "B" })] []) "X"
      { session_id := some "s1", offer := some "O", answer := some "N",
        candidate := some "I" } =
      (ServerState.mk [("s2",
        { client_id := some "A", compute_id := some "B" })] [],
       [Out.emitTo "X" "error"
         [("message", "Unauthorized: not client for this session")]]) := by
  refine ⟨rfl, ?_⟩
  exact (C3_missing_session_unauthorized
    (ServerState.mk [("s2",
      { client_id := some "A", compute_id := some "B" })] [])
    (ServerState.mk [("s1",
      { client_id := some "A", compute_id := some "B" })] [])
    "X" "s1" "O" "N" "I"
    { session_id := some "s1", offer := some "O", answer := some "N",
      candidate := some "I" }
    { client_id := some "A", compute_id := some "B" }
    rfl rfl rfl rfl rfl rfl rfl rfl rfl rfl
    (by decide) (by decide)).1

/-- C8: For an authorized relay event the whole output is a single
broadcast to the session room whose payload is exactly
`session_id`, the submitted `offer`/`answer`/`candidate` value unchanged,
and `from` set to the sender. -/
theorem C8_payload_transparency (st : ServerState) (cl cp s o a c : String)
    (d : EventData)
    (hs : d.session_id = some s) (hsne : s.isEmpty = false)
    (ho : d.offer = some o) (hone : o.isEmpty = false)
    (ha : d.answer = some a) (hane : a.isEmpty = false)
    (hc : d.candidate = some c) (hcne : c.isEmpty = false)
    (hcl : (sessionOf st s).client_id = some cl)
    (hcp : (sessionOf st s).compute_id = some cp) :
    handle_offer st cl d = (st, [Out.broadcast s "offer"
      [("session_id", s), ("offer", o), ("from", cl)]]) ∧
    handle_answer st cp d = (st, [Out.broadcast s "answer"
      [("session_id", s), ("answer", a), ("from", cp)]]) ∧
    handle_ice_candidate st cl d = (st, [Out.broadcast s "ice_candidate"
      [("session_id", s), ("candidate", c), ("from", cl)]]) ∧
    handle_ice_candidate st cp d = (st, [Out.broadcast s "ice_candidate"
      [("session_id", s), ("candidate", c), ("from", cp)]]) := by
  simp only [sessionOf] at hcl hcp
  refine ⟨?_, ?_, ?_, ?_⟩
  · simp [handle_offer, hs, ho, isBlank, hsne, hone, hcl]
  · simp [handle_answer, hs, ha, isBlank, hsne, hane, hcp]
  · simp [handle_ice_candidate, hs, hc, isBlank, hsne, hcne, hcl]
  · simp [handle_ice_candidate, hs, hc, isBlank, hsne, hcne, hcp]

/-- Witness for C8 on a paired session: client `A` relays offer `"SDP"`
verbatim. -/
theorem C8_payload_transparency_witness :
    ((sessionOf (ServerState.mk [("s1",
      { client_id := some "A", compute_id := some "B" })] [("s1",
      ["A", "B"])]) "s1").client_id = some "A") ∧
    handle_offer (ServerState.mk [("s1",
      { client_id := some "A", compute_id := some "B" })] [("s1",
      ["A", "B"])]) "A"
      { session_id := some "s1", offer := some "SDP", answer := some "N",
        candidate := some "I" } =
      (ServerState.mk [("s1",
        { client_id := some "A", compute_id := some "B" })] [("s1",
        ["A", "B"])],
       [Out.broadcast "s1" "offer"
         [("session_id", "s1"), ("offer", "SDP"), ("from", "A")]]) := by
  refine ⟨rfl, ?_⟩
  exact (C8_payload_transparency (ServerState.mk [("s1",
      { client_id := some "A", compute_id := some "B" })] [("s1",
      ["A", "B"])]) "A" "B" "s1" "SDP" "N" "I"
    { session_id := some "s1", offer := some "SDP", answer := some "N",
      candidate := some "I" }
    rfl rfl rfl rfl rfl rfl rfl rfl rfl rfl).1

/-- C5: `create_session` with a missing or empty `session_id` answers a
validation error and leaves the state unchanged; otherwise the caller
becomes the stored `client_id` of the (possibly freshly created) session
record, every other store entry is untouched, the caller is a member of
the room named by the session id, and the only emission is the
`session_created` confirmation to the caller. -/
theorem C5_create_session_spec (st : ServerState) (sid : String)
    (d : EventData) :
    if isBlank d.session_id then
      handle_create_session st sid d =
        (st, [Out.emitTo sid "error" [("message", "session_id required")]])
    else
      lookupA (handle_create_session st sid d).1.active_sessions
          (d.session_id.getD "") =
        some { sessionOf st (d.session_id.getD "") with
          client_id := some sid } ∧
      eraseA (handle_create_session st sid d).1.active_sessions
          (d.session_id.getD "") =
        eraseA st.active_sessions (d.session_id.getD "") ∧
      sid ∈ roomMembers (handle_create_session st sid d).1
        (d.session_id.getD "") ∧
      (handle_create_session st sid d).2 =
        [Out.emitTo sid "session_created"
          [("session_id", d.session_id.getD "")]] := by
  by_cases hb : isBlank d.session_id = true
  · rw [if_pos hb]
    simp [handle_create_session, hb]
  · rw [if_neg hb]
    have h1 : (handle_create_session st sid d).1.active_sessions =
        insertA st.active_sessions (d.session_id.getD "")
          { sessionOf st (d.session_id.getD "") with
            client_id := some sid } := by
      simp [handle_create_session, hb, sessionOf]
    have h2 : (handle_create_session st sid d).1.rooms =
        joinRoom st.rooms (d.session_id.getD "") sid := by
      simp [handle_create_session, hb]
    refine ⟨?_, ?_, ?_, ?_⟩
    · rw [h1]
      exact lookupA_insertA_self _ _ _
    · rw [h1]
      exact eraseA_insertA _ _ _
    · unfold roomMembers
      rw [h2]
      unfold joinRoom
      rw [lookupA_insertA_self]
      exact mem_addMember _ _
    · simp [handle_create_session, hb]

/-- C6: `join_as_compute` on a non-existent session answers the
`Session not found` error with the state untouched; on an existing
session it stores the caller as `compute_id`, touches no other entry,
joins the caller to the room, and confirms the compute role to the caller
only. -/
theorem C6_join_as_compute_spec (st : ServerState) (sid s : String)
    (d : EventData) (hs : d.session_id = some s)
    (hsne : s.isEmpty = false) :
    match lookupA st.active_sessions s with
    | none => handle_join_as_compute st sid d =
        (st, [Out.emitTo sid "error" [("message", "Session not found")]])
    | some sess =>
        lookupA (handle_join_as_compute st sid d).1.active_sessions s =
          some { sess with compute_id := some sid } ∧
        eraseA (handle_join_as_compute st sid d).1.active_sessions s =
          eraseA st.active_sessions s ∧
        sid ∈ roomMembers (handle_join_as_compute st sid d).1 s ∧
        (handle_join_as_compute st sid d).2 =
          [Out.emitTo sid "joined"
            [("role", "compute"), ("session_id", s)]] := by
  cases hlk : lookupA st.active_sessions s with
  | none =>
    simp only [hlk]
    simp [handle_join_as_compute, hs, isBlank, hsne, hlk]
  | some sess =>
    simp only [hlk]
    have h1 : (handle_join_as_compute st sid d).1.active_sessions =
        insertA st.active_sessions s { sess with compute_id := some sid }
        := by
      simp [handle_join_as_compute, hs, isBlank, hsne, hlk]
    have h2 : (handle_join_as_compute st sid d).1.rooms =
        joinRoom st.rooms s sid := by
      simp [handle_join_as_compute, hs, isBlank, hsne, hlk]
    refine ⟨?_, ?_, ?_, ?_⟩
    · rw [h1]
      exact lookupA_insertA_self _ _ _
    · rw [h1]
      exact eraseA_insertA _ _ _
    · unfold roomMembers
      rw [h2]
      unfold joinRoom
      rw [lookupA_insertA_self]
      exact mem_addMember _ _
    · simp [handle_join_as_compute, hs, isBlank, hsne, hlk]

/-- Witness for C6: joining the absent session `s1` of an empty store is
answered with `Session not found`, and joining an existing one stores the
compute role. -/
theorem C6_join_as_compute_spec_witness :
    (({ session_id := some "s1" } : EventData).session_id = some "s1") ∧
    (match lookupA initialState.active_sessions "s1" with
    | none => handle_join_as_compute initialState "B"
          { session_id := some "s1" } =
        (initialState,
          [Out.emitTo "B" "error" [("message", "Session not found")]])
    | some sess =>
        lookupA (handle_join_as_compute initialState "B"
          { session_id := some "s1" }).1.active_sessions "s1" =
          some { sess with compute_id := some "B" } ∧
        eraseA (handle_join_as_compute initialState "B"
          { session_id := some "s1" }).1.active_sessions "s1" =
          eraseA initialState.active_sessions "s1" ∧
        "B" ∈ roomMembers (handle_join_as_compute initialState "B"
          { session_id := some "s1" }).1 "s1" ∧
        (handle_join_as_compute initialState "B"
          { session_id := some "s1" }).2 =
          [Out.emitTo "B" "joined"
            [("role", "compute"), ("session_id", "s1")]]) :=
  ⟨rfl, C6_join_as_compute_spec initialState "B" "s1"
    { session_id := some "s1" } rfl rfl⟩

/-- C7: Two consecutive `create_session` calls with the same session id
(by callers `a` then `b`) leave exactly one store entry for that id, and
its `client_id` is the later caller `b` (last-writer-wins); the compute
slot is whatever the original record held.  That each role is a single
optional slot is enforced by the `Session` record itself. -/
theorem C7_create_session_last_writer_wins (st : ServerState)
    (a b s : String) (hsne : s.isEmpty = false)
    (hcount : countKey st.active_sessions s ≤ 1) :
    countKey (handle_create_session
        (handle_create_session st a { session_id := some s }).1 b
        { session_id := some s }).1.active_sessions s = 1 ∧
    lookupA (handle_create_session
        (handle_create_session st a { session_id := some s }).1 b
        { session_id := some s }).1.active_sessions s =
      some { sessionOf st s with client_id := some b } := by
  have e1 : (handle_create_session st a
      { session_id := some s }).1.active_sessions =
      insertA st.active_sessions s
        { sessionOf st s with client_id := some a } := by
    simp [handle_create_session, isBlank, hsne, sessionOf]
  have e2 : (handle_create_session
      (handle_create_session st a { session_id := some s }).1 b
      { session_id := some s }).1.active_sessions =
      insertA (handle_create_session st a
          { session_id := some s }).1.active_sessions s
        { sessionOf (handle_create_session st a
            { session_id := some s }).1 s with client_id := some b } := by
    simp [handle_create_session, isBlank, hsne, sessionOf]
  have e3 : sessionOf (handle_create_session st a
      { session_id := some s }).1 s =
      { sessionOf st s with client_id := some a } := by
    unfold sessionOf
    rw [e1, lookupA_insertA_self]
    rfl
  constructor
  · rw [e2, countKey_insertA, e1, countKey_insertA]
    omega
  · rw [e2, e3, lookupA_insertA_self]

/-- Witness for C7: creating `s1` as `A` and again as `B` from the empty
store keeps one entry whose client is `B`. -/
theorem C7_create_session_last_writer_wins_witness :
    (("s1" : String).isEmpty = false) ∧
    (countKey (handle_create_session
        (handle_create_session initialState "A"
          { session_id := some "s1" }).1 "B"
        { session_id := some "s1" }).1.active_sessions "s1" = 1 ∧
    lookupA (handle_create_session
        (handle_create_session initialState "A"
          { session_id := some "s1" }).1 "B"
        { session_id := some "s1" }).1.active_sessions "s1" =
      some { sessionOf initialState "s1" with client_id := some "B" }) :=
  ⟨rfl, C7_create_session_last_writer_wins initialState "A" "B" "s1" rfl
    (by decide)⟩

/-- C4: For every connection `c`, disconnecting `c` deletes exactly the
store entries in which `c` occupies the client or the compute role (the
whole record, including the peer's role) and keeps every other entry
unchanged; and every session `s` in which `c` occupied either role is
gone, so a subsequent `join_as_compute` for `s` is answered with
`Session not found`. -/
theorem C4_disconnect_cleanup (st : ServerState) (c b : String)
    (hnd : NodupKeys st.active_sessions) :
    (handle_disconnect st c).1.active_sessions =
      st.active_sessions.filter (fun e => !(involves e.2 c)) ∧
    (∀ s sess0, lookupA st.active_sessions s = some sess0 →
      involves sess0 c = true → s.isEmpty = false →
      lookupA (handle_disconnect st c).1.active_sessions s = none ∧
      handle_join_as_compute (handle_disconnect st c).1 b
        { session_id := some s } =
        ((handle_disconnect st c).1,
         [Out.emitTo b "error" [("message", "Session not found")]])) := by
  have hfil : (handle_disconnect st c).1.active_sessions =
      st.active_sessions.filter (fun e => !(involves e.2 c)) := by
    have hq : (handle_disconnect st c).1.active_sessions =
        ((st.active_sessions.filter fun e => involves e.2 c).map
          (·.1)).foldl (fun acc k => eraseA acc k) st.active_sessions := rfl
    rw [hq, foldl_eraseA]
    refine List.filter_congr fun e he => ?_
    by_cases hinv : involves e.2 c = true
    · have hmem : e.1 ∈ (st.active_sessions.filter
          fun e2 => involves e2.2 c).map (·.1) :=
        List.mem_map_of_mem _ (List.mem_filter.mpr ⟨he, hinv⟩)
      simp [hmem, hinv]
    · have hnotmem : e.1 ∉ (st.active_sessions.filter
          fun e2 => involves e2.2 c).map (·.1) := by
        intro hmem
        rcases List.mem_map.mp hmem with ⟨e2, he2, hk⟩
        rcases List.mem_filter.mp he2 with ⟨he2l, hinv2⟩
        have he2e : e2 = e := eq_of_mem_nodupkeys hnd he2l he hk
        rw [he2e] at hinv2
        exact hinv hinv2
      simp [hnotmem, hinv]
  refine ⟨hfil, ?_⟩
  intro s sess0 hs hinv hsne
  have hnone : lookupA (handle_disconnect st c).1.active_sessions s =
      none := by
    rw [hfil]
    apply lookupA_eq_none
    intro e he hks
    rcases List.mem_filter.mp he with ⟨hel, hkeep⟩
    have hmem0 : (s, sess0) ∈ st.active_sessions := lookupA_mem hs
    have hee : e = (s, sess0) := eq_of_mem_nodupkeys hnd hel hmem0 hks
    rw [hee] at hkeep
    simp only [hinv] at hkeep
    simp at hkeep
  refine ⟨hnone, ?_⟩
  simp [handle_join_as_compute, isBlank, hsne, hnone]

/-- Witness for C4 at a connection occupying only the compute role: with
`s1` paired as client `A` / compute `B`, disconnecting `B` deletes the
record and `B` can no longer join `s1`. -/
theorem C4_disconnect_cleanup_witness :
    NodupKeys (ServerState.mk [("s1",
      { client_id := some "A", compute_id := some "B" })]
      [("s1", ["A", "B"])]).active_sessions ∧
    lookupA (handle_disconnect (ServerState.mk [("s1",
      { client_id := some "A", compute_id := some "B" })]
      [("s1", ["A", "B"])]) "B").1.active_sessions "s1" = none ∧
    handle_join_as_compute (handle_disconnect (ServerState.mk [("s1",
      { client_id := some "A", compute_id := some "B" })]
      [("s1", ["A", "B"])]) "B").1 "B" { session_id := some "s1" } =
      ((handle_disconnect (ServerState.mk [("s1",
        { client_id := some "A", compute_id := some "B" })]
        [("s1", ["A", "B"])]) "B").1,
       [Out.emitTo "B" "error" [("message", "Session not found")]]) := by
  have hnd : NodupKeys (ServerState.mk [("s1",
      { client_id := some "A", compute_id := some "B" })]
      [("s1", ["A", "B"])]).active_sessions := by
    simp [NodupKeys]
  have hmain := (C4_disconnect_cleanup (ServerState.mk [("s1",
      { client_id := some "A", compute_id := some "B" })]
      [("s1", ["A", "B"])]) "B" "B" hnd).2 "s1"
    { client_id := some "A", compute_id := some "B" } rfl (by decide) rfl
  exact ⟨hnd, hmain.1, hmain.2⟩

theorem mem_addMember_iff (m : List String) (c sid : String) :
    c ∈ addMember m sid ↔ c ∈ m ∨ c = sid := by
  unfold addMember
  split
  · next h =>
    have hsid : sid ∈ m := List.mem_of_elem_eq_true h
    constructor
    · exact Or.inl
    · rintro (h1 | rfl)
      · exact h1
      · exact hsid
  · simp

theorem mem_joinRoom_iff (rooms : List (String × List String))
    (c room r2 sid : String) :
    c ∈ (lookupA (joinRoom rooms r2 sid) room).getD [] ↔
      c ∈ (lookupA rooms room).getD [] ∨ (r2 = room ∧ c = sid) := by
  unfold joinRoom
  by_cases hr : r2 = room
  · subst hr
    rw [lookupA_insertA_self]
    simp only [Option.getD_some]
    rw [mem_addMember_iff]
    simp
  · rw [lookupA_insertA_ne _ _ _ _ (fun hh => hr hh.symm)]
    simp [hr]

theorem step_mem_roomMembers (st : ServerState) (e : Event)
    (c room : String) :
    c ∈ roomMembers (step st e).1 room ↔
      (c ∈ roomMembers st room ∧ e.isDisconnectOf c = false) ∨
      registersInto st e c room = true := by
  cases e with
  | connect sid =>
    simp [step, handle_connect, registersInto, Event.isDisconnectOf]
  | disconnect sid =>
    show c ∈ (lookupA (leaveAllRooms st.rooms sid) room).getD [] ↔ _
    rw [lookupA_leaveAllRooms]
    simp only [registersInto, Event.isDisconnectOf, roomMembers]
    cases hlk : lookupA st.rooms room with
    | none => simp
    | some m =>
      simp only [Option.map_some', Option.getD_some]
      by_cases hcs : sid = c
      · subst hcs
        simp [List.mem_filter]
      · have h1 : (c == sid) = false :=
          beq_eq_false_iff_ne.mpr fun hq => hcs hq.symm
        have h2 : (sid == c) = false := beq_eq_false_iff_ne.mpr hcs
        simp [List.mem_filter, h1, h2]
  | create_session sid d =>
    show c ∈ roomMembers (handle_create_session st sid d).1 room ↔ _
    simp only [registersInto, Event.isDisconnectOf, decide_eq_true_eq]
    by_cases hb : isBlank d.session_id = true
    · unfold handle_create_session
      rw [if_pos hb]
      simp [hb]
    · have hbf : isBlank d.session_id = false := by
        cases hq : isBlank d.session_id
        · rfl
        · exact absurd hq hb
      unfold handle_create_session
      rw [if_neg hb]
      constructor
      · intro hmem
        rcases (mem_joinRoom_iff st.rooms c room
            (d.session_id.getD "") sid).mp hmem with hm | ⟨hr, rfl⟩
        · exact Or.inl ⟨hm, by trivial⟩
        · exact Or.inr ⟨rfl, hbf, hr⟩
      · intro hmem
        apply (mem_joinRoom_iff st.rooms c room
            (d.session_id.getD "") sid).mpr
        rcases hmem with ⟨hm, _⟩ | ⟨rfl, _, hr⟩
        · exact Or.inl hm
        · exact Or.inr ⟨hr, rfl⟩
  | join_as_compute sid d =>
    show c ∈ roomMembers (handle_join_as_compute st sid d).1 room ↔ _
    simp only [registersInto, Event.isDisconnectOf, decide_eq_true_eq]
    by_cases hb : isBlank d.session_id = true
    · unfold handle_join_as_compute
      rw [if_pos hb]
      simp [hb]
    · have hbf : isBlank d.session_id = false := by
        cases hq : isBlank d.session_id
        · rfl
        · exact absurd hq hb
      unfold handle_join_as_compute
      rw [if_neg hb]
      dsimp only
      cases hlk : lookupA st.active_sessions (d.session_id.getD "") with
      | none =>
        constructor
        · intro hm
          exact Or.inl ⟨hm, by trivial⟩
        · rintro (⟨hm, _⟩ | ⟨rfl, _, hr, hsome⟩)
          · exact hm
          · rw [← hr, hlk] at hsome
            simp at hsome
      | some sess =>
        constructor
        · intro hmem
          rcases (mem_joinRoom_iff st.rooms c room
              (d.session_id.getD "") sid).mp hmem with hm | ⟨hr, rfl⟩
          · exact Or.inl ⟨hm, by trivial⟩
          · refine Or.inr ⟨rfl, hbf, hr, ?_⟩
            rw [← hr, hlk]
            rfl
        · intro hmem
          apply (mem_joinRoom_iff st.rooms c room
              (d.session_id.getD "") sid).mpr
          rcases hmem with ⟨hm, _⟩ | ⟨rfl, _, hr, _⟩
          · exact Or.inl hm
          · exact Or.inr ⟨hr, rfl⟩
  | offer sid d =>
    have hq := handle_offer_state st sid d
    show c ∈ roomMembers (handle_offer st sid d).1 room ↔ _
    rw [hq]
    simp [registersInto, Event.isDisconnectOf]
  | answer sid d =>
    have hq := handle_answer_state st sid d
    show c ∈ roomMembers (handle_answer st sid d).1 room ↔ _
    rw [hq]
    simp [registersInto, Event.isDisconnectOf]
  | ice_candidate sid d =>
    have hq := handle_ice_candidate_state st sid d
    show c ∈ roomMembers (handle_ice_candidate st sid d).1 room ↔ _
    rw [hq]
    simp [registersInto, Event.isDisconnectOf]

/-- C9 counterexample: after `A` creates `s1`, `B` joins as compute, and
`C` re-creates `s1` (displacing `A` from the client role), the room
`s1` still contains `A` — its membership `["A", "B", "C"]` is strictly
larger than the two currently paired connections `C` and `B` — and an
offer subsequently authorized for the new client `C` is broadcast to that
three-member room, so the displaced `A` still receives it. -/
theorem C9_room_membership_counterexample :
    roomMembers (run [Event.create_session "A" { session_id := some "s1" },
      Event.join_as_compute "B" { session_id := some "s1" },
      Event.create_session "C" { session_id := some "s1" }]) "s1" =
      ["A", "B", "C"] ∧
    lookupA (run [Event.create_session "A" { session_id := some "s1" },
      Event.join_as_compute "B" { session_id := some "s1" },
      Event.create_session "C" { session_id := some "s1" }]).active_sessions
      "s1" = some { client_id := some "C", compute_id := some "B" } ∧
    "A" ∈ roomMembers
      (run [Event.create_session "A" { session_id := some "s1" },
        Event.join_as_compute "B" { session_id := some "s1" },
        Event.create_session "C" { session_id := some "s1" }]) "s1" ∧
    ("A" : String) ≠ "C" ∧ ("A" : String) ≠ "B" ∧
    (handle_offer (run [Event.create_session "A"
        { session_id := some "s1" },
      Event.join_as_compute "B" { session_id := some "s1" },
      Event.create_session "C" { session_id := some "s1" }]) "C"
      { session_id := some "s1", offer := some "SDP" }).2 =
      [Out.broadcast "s1" "offer"
        [("session_id", "s1"), ("offer", "SDP"), ("from", "C")]] := by
  refine ⟨by decide, by decide, by decide, by decide, by decide, by decide⟩

theorem specRoomMember_aux (c room : String) (es : List Event) :
    ∀ (st : ServerState) (b : Bool),
      (c ∈ roomMembers st room ↔ b = true) →
      (c ∈ roomMembers (es.foldl (fun st2 e => (step st2 e).1) st) room ↔
        (es.foldl (fun (p : ServerState × Bool) e =>
            ((step p.1 e).1,
              (p.2 && !(e.isDisconnectOf c)) || registersInto p.1 e c room))
          (st, b)).2 = true) := by
  induction es with
  | nil =>
    intro st b h
    simpa using h
  | cons e rest ih =>
    intro st b h
    simp only [List.foldl_cons]
    apply ih
    rw [step_mem_roomMembers, h]
    cases hdisc : e.isDisconnectOf c <;>
      cases hreg : registersInto st e c room <;>
      cases b <;> simp

/-- C9 amended: after any event trace, the membership of the room named
`room` is exactly the set of connections that were successfully
registered into it by a `create_session` or `join_as_compute` and have
not disconnected since (`specRoomMember`) — a set that retains displaced
role-holders, as the counterexample shows, rather than the two current
role occupants. -/
theorem C9_room_membership_equals_registrants (es : List Event)
    (c room : String) :
    c ∈ roomMembers (run es) room ↔ specRoomMember es c room = true := by
  have h0 : roomMembers initialState room = [] := rfl
  unfold run specRoomMember
  refine specRoomMember_aux c room es initialState false ?_
  rw [h0]
  simp

/-- Every stored session record has its client role populated. -/
def allClients (st : ServerState) : Prop :=
  ∀ e ∈ st.active_sessions, e.2.client_id.isSome = true

theorem step_allClients (st : ServerState) (ev : Event)
    (h : allClients st) : allClients (step st ev).1 := by
  cases ev with
  | connect sid => exact h
  | disconnect sid =>
    intro e he
    have hq : (step st (Event.disconnect sid)).1.active_sessions =
        ((st.active_sessions.filter fun e2 => involves e2.2 sid).map
          (·.1)).foldl (fun acc k => eraseA acc k) st.active_sessions := rfl
    rw [hq, foldl_eraseA] at he
    exact h e (List.mem_filter.mp he).1
  | create_session sid d =>
    by_cases hb : isBlank d.session_id = true
    · have hq : (step st (Event.create_session sid d)).1 = st := by
        simp [step, handle_create_session, hb]
      rw [hq]
      exact h
    · have hq : (step st (Event.create_session sid d)).1.active_sessions =
          insertA st.active_sessions (d.session_id.getD "")
            { (lookupA st.active_sessions (d.session_id.getD "")).getD {}
              with client_id := some sid } := by
        simp [step, handle_create_session, hb]
      intro e he
      rw [hq] at he
      rcases mem_insertA he with he2 | he2
      · rw [he2]
        rfl
      · exact h e he2
  | join_as_compute sid d =>
    by_cases hb : isBlank d.session_id = true
    · have hq : (step st (Event.join_as_compute sid d)).1 = st := by
        simp [step, handle_join_as_compute, hb]
      rw [hq]
      exact h
    · cases hlk : lookupA st.active_sessions (d.session_id.getD "") with
      | none =>
        have hq : (step st (Event.join_as_compute sid d)).1 = st := by
          simp [step, handle_join_as_compute, hb, hlk]
        rw [hq]
        exact h
      | some sess =>
        have hq : (step st
            (Event.join_as_compute sid d)).1.active_sessions =
            insertA st.active_sessions (d.session_id.getD "")
              { sess with compute_id := some sid } := by
          simp [step, handle_join_as_compute, hb, hlk]
        intro e he
        rw [hq] at he
        rcases mem_insertA he with he2 | he2
        · rw [he2]
          exact h (d.session_id.getD "", sess) (lookupA_mem hlk)
        · exact h e he2
  | offer sid d =>
    have hq := handle_offer_state st sid d
    show allClients (handle_offer st sid d).1
    rw [hq]
    exact h
  | answer sid d =>
    have hq := handle_answer_state st sid d
    show allClients (handle_answer st sid d).1
    rw [hq]
    exact h
  | ice_candidate sid d =>
    have hq := handle_ice_candidate_state st sid d
    show allClients (handle_ice_candidate st sid d).1
    rw [hq]
    exact h

/-- C10: In every state reachable from the initial state by any event
sequence, every session record present in the store has its client role
populated: `create_session` is the only operation that adds an entry and
it sets `client_id` at once, `join_as_compute` requires an existing
entry, and disconnect deletes whole records. -/
theorem C10_sessions_always_have_client (es : List Event) (k : String)
    (sess : Session)
    (h : lookupA (run es).active_sessions k = some sess) :
    sess.client_id.isSome = true := by
  have hall : allClients (run es) := by
    unfold run
    have aux : ∀ (l : List Event) (st : ServerState), allClients st →
        allClients (l.foldl (fun st2 e => (step st2 e).1) st) := by
      intro l
      induction l with
      | nil => exact fun st hst => hst
      | cons e rest ih => exact fun st hst => ih _ (step_allClients st e hst)
    refine aux es initialState ?_
    intro e he
    cases he
  exact hall (k, sess) (lookupA_mem h)

/-- Witness for C10 on the one-event trace that creates `s1`. -/
theorem C10_sessions_always_have_client_witness :
    lookupA (run [Event.create_session "A"
      { session_id := some "s1" }]).active_sessions "s1" =
      some { client_id := some "A", compute_id := none } ∧
    (Session.mk (some "A") none).client_id.isSome = true :=
  ⟨by decide, C10_sessions_always_have_client
    [Event.create_session "A" { session_id := some "s1" }] "s1"
    { client_id := some "A", compute_id := none } (by decide)⟩

end NeuraX
